import Mathlib

/-!
Shallow embedding of the Conversation Engine implemented in
src/components/ChatInterface.tsx.

Strings are modelled with explicit character-list operations (jsTrim,
jsTake, ...) mirroring the JavaScript string methods used by the source
(trim, slice, startsWith, includes).  The asynchronous streaming turn is
modelled by explicit small steps: processStart appends the placeholder
message and records the provider call, chunkStep consumes one stream
chunk, finishStep and failStep terminate the turn.  The React effect
that mirrors the active message log into the session list (lines
109-133 of the source) runs after every setMessages, which is modelled
by setMessagesS applying syncSessions after each message mutation.
Every operation takes an explicit clock value now : Nat standing for
Date.now(); message and session ids are derived from it exactly as in
the source (Date.now().toString() and (Date.now()+1).toString()).
The provider adapter is opaque: a chat turn receives its outcome as a
StreamOutcome value (the lazy chunk sequence, ending normally or with a
thrown failure), image generation receives an Except value.
-/

/-- JavaScript String.prototype.trim modelled on the character list. -/
def jsTrim (s : String) : String :=
  String.mk (((s.toList.dropWhile Char.isWhitespace).reverse.dropWhile Char.isWhitespace).reverse)

/-- JavaScript startsWith. -/
def jsStartsWith (s p : String) : Bool := p.toList.isPrefixOf s.toList

/-- JavaScript slice(0, n). -/
def jsTake (s : String) (n : Nat) : String := String.mk (s.toList.take n)

/-- Dropping the first n characters (used to model replace of a leading pattern). -/
def jsDrop (s : String) (n : Nat) : String := String.mk (s.toList.drop n)

/-- Character count of a string. -/
def jsLen (s : String) : Nat := s.toList.length

/-- Whether p occurs as a contiguous sub-list of l. -/
def hasSub (p : List Char) : List Char → Bool
  | [] => p.isPrefixOf []
  | c :: t => p.isPrefixOf (c :: t) || hasSub p t

/-- JavaScript String.prototype.includes. -/
def strIncludes (s p : String) : Bool := hasSub p.toList s.toList

/-- Message roles, from the Message type used by ChatInterface.tsx. -/
inductive Role
  | user
  | model
deriving DecidableEq, Repr

/-- One chat message (type Message of the source). -/
structure Message where
  id : Nat
  role : Role
  text : String
  image : Option String := none
  isStreaming : Bool := false
  isError : Bool := false
  timestamp : Nat := 0
deriving DecidableEq, Repr

/-- One conversation thread (type ChatSession of the source). -/
structure ChatSession where
  id : Nat
  title : String
  messages : List Message
  updatedAt : Nat
deriving DecidableEq, Repr

/-- A staged text-file attachment (selectedTextFile state). -/
structure TextFile where
  name : String
  content : String
deriving DecidableEq, Repr

/-- Model configuration (type ChatConfig of the source). -/
structure ChatConfig where
  model : String
  systemInstruction : String
  useThinking : Bool
deriving DecidableEq, Repr

/-- Ghost record of one call made to the provider adapter
(streamChatResponse or generateImageFromPrompt). -/
inductive ProviderCall
  | chat (history : List Message) (text : String) (image : Option String)
      (model : String) (systemInstruction : String) (thinkingBudget : Option Nat)
  | image (prompt : String)
deriving DecidableEq, Repr

/-- The React component state of ChatInterface that the engine logic reads
and writes.  providerCalls is a ghost trace of adapter invocations. -/
structure EngineState where
  messages : List Message
  sessions : List ChatSession
  currentSessionId : Option Nat
  inputValue : String
  selectedImage : Option String
  imagePreview : Option String
  selectedTextFile : Option TextFile
  isStreaming : Bool
  cfg : ChatConfig
  providerCalls : List ProviderCall
deriving DecidableEq, Repr

/-- Title derivation performed by the session-mirroring effect
(source lines 114-121). -/
def deriveTitle (title : String) (msgs : List Message) : String :=
  if (title = "New Chat" ∨ title = "") ∧ 0 < msgs.length then
    match msgs.find? (fun m => m.role == Role.user) with
    | some firstUserMsg =>
        jsTake firstUserMsg.text 30 ++ (if 30 < jsLen firstUserMsg.text then "..." else "")
    | none => title
  else title

/-- The useEffect on [messages, currentSessionId] (source lines 109-133):
writes the current message log into the active session entry, derives the
title while it is still the sentinel, and stamps updatedAt. -/
def syncSessions (s : EngineState) (now : Nat) : EngineState :=
  match s.currentSessionId with
  | none => s
  | some cid =>
    { s with sessions := s.sessions.map (fun sess =>
        if sess.id = cid then
          { sess with
              messages := s.messages,
              title := deriveTitle sess.title s.messages,
              updatedAt := now }
        else sess) }

/-- setMessages followed by the session-mirroring effect. -/
def setMessagesS (s : EngineState) (msgs : List Message) (now : Nat) : EngineState :=
  syncSessions { s with messages := msgs } now

/-- Text carried by one stream chunk (chunk.text may be absent). -/
def chunkContrib : Option String → String
  | none => ""
  | some t => t

/-- Concatenation of the text of all chunks (empty or absent text
contributes nothing). -/
def accumText (cs : List (Option String)) : String :=
  cs.foldl (fun a c => a ++ chunkContrib c) ""

/-- Outcome of one streaming chat call: the chunk sequence either ends
normally or raises a failure (with an optional description) after some
chunks were delivered. -/
inductive StreamOutcome
  | ok (chunks : List (Option String))
  | err (chunks : List (Option String)) (message : Option String)
deriving DecidableEq, Repr

/-- One iteration of the for-await loop of processMessage (source lines
300-310): a chunk with non-empty text is appended to the accumulator and
the placeholder is patched by id to the accumulated value. -/
def chunkStep (s : EngineState) (aiId : Nat) (acc : String) (c : Option String) (now : Nat) :
    EngineState × String :=
  match c with
  | none => (s, acc)
  | some t =>
    if t = "" then (s, acc)
    else
      let acc2 := acc ++ t
      (setMessagesS s (s.messages.map (fun m =>
        if m.id = aiId then { m with text := acc2 } else m)) now, acc2)

/-- Folding chunkStep over the whole chunk sequence. -/
def consumeChunks (s : EngineState) (aiId : Nat) (acc : String) (cs : List (Option String)) (now : Nat) :
    EngineState × String :=
  match cs with
  | [] => (s, acc)
  | c :: rest =>
    let r := chunkStep s aiId acc c now
    consumeChunks r.1 aiId r.2 rest now

/-- Normal stream exhaustion (source lines 312-316): the placeholder
receives the final accumulated text and isStreaming = false; the finally
block clears the in-flight flag. -/
def finishStep (s : EngineState) (aiId : Nat) (acc : String) (now : Nat) : EngineState :=
  let s2 := setMessagesS s (s.messages.map (fun m =>
    if m.id = aiId then { m with text := acc, isStreaming := false } else m)) now
  { s2 with isStreaming := false }

/-- error.message with JavaScript falsy fallback to "Unknown error". -/
def normalizeErrMsg : Option String → String
  | none => "Unknown error"
  | some m => if m = "" then "Unknown error" else m

/-- The error classification of the catch block of processMessage
(source lines 318-330). -/
def classifyError (model : String) (errorMessage : String) : String :=
  if strIncludes errorMessage "API Key" then
    "API Key missing. Please add API_KEY to Vercel Environment Variables."
  else if strIncludes errorMessage "404" then
    "Model " ++ model ++ " not found or not available. Try switching models."
  else if strIncludes errorMessage "429" then
    "Rate limit exceeded. Please try again later."
  else
    "Error: " ++ errorMessage

/-- The catch block of processMessage (source lines 318-339): patch the
placeholder with the classified message, isError = true, isStreaming =
false; the finally block clears the in-flight flag. -/
def failStep (s : EngineState) (aiId : Nat) (eMsg : Option String) (now : Nat) : EngineState :=
  let displayError := classifyError s.cfg.model (normalizeErrMsg eMsg)
  let s2 := setMessagesS s (s.messages.map (fun m =>
    if m.id = aiId then { m with text := displayError, isError := true, isStreaming := false } else m)) now
  { s2 with isStreaming := false }

/-- The thinkingConfig option (source lines 282-287): attached only when
the toggle is on and the model id belongs to the gemini-2.5 family. -/
def thinkingOption (cfg : ChatConfig) : Option Nat :=
  if cfg.useThinking && strIncludes cfg.model "gemini-2.5" then some 1024 else none

/-- Synchronous head of processMessage (source lines 266-296): append the
streaming placeholder with id Date.now()+1, set the in-flight flag and
invoke the adapter (recorded in the ghost trace). -/
def processStart (s : EngineState) (text : String) (image : Option String)
    (history : List Message) (now : Nat) : EngineState × Nat :=
  let aiId := now + 1
  let ph : Message :=
    { id := aiId, role := Role.model, text := "", isStreaming := true, timestamp := now }
  let s1 := setMessagesS s (s.messages ++ [ph]) now
  let s2 := { s1 with
    isStreaming := true,
    providerCalls := s1.providerCalls ++
      [ProviderCall.chat history text image s.cfg.model s.cfg.systemInstruction
        (thinkingOption s.cfg)] }
  (s2, aiId)

/-- Consuming the adapter outcome after dispatch: the chunk loop followed
by normal finalization or the catch block. -/
def runOutcome (s : EngineState) (aiId : Nat) (outcome : StreamOutcome) (now : Nat) : EngineState :=
  match outcome with
  | StreamOutcome.ok cs =>
    let r := consumeChunks s aiId "" cs now
    finishStep r.1 aiId r.2 now
  | StreamOutcome.err cs eMsg =>
    let r := consumeChunks s aiId "" cs now
    failStep r.1 aiId eMsg now

/-- processMessage of the source (lines 266-340). -/
def processMessage (s : EngineState) (text : String) (image : Option String)
    (history : List Message) (outcome : StreamOutcome) (now : Nat) : EngineState :=
  let r := processStart s text image history now
  runOutcome r.1 r.2 outcome now

/-- The rejection guard of handleSendMessage (source line 393). -/
def sendGuard (s : EngineState) (textToSend : String) : Bool :=
  ((jsTrim textToSend == "") && s.selectedImage.isNone && s.selectedTextFile.isNone)
    || s.isStreaming

/-- The full history form of the outbound user text (source lines 395-400):
a file attachment is appended as a delimited block. -/
def buildUserText (trimmed : String) (file : Option TextFile) : String :=
  match file with
  | none => trimmed
  | some f =>
    if trimmed = "" then "--- Attached File: " ++ f.name ++ " ---\n" ++ f.content
    else trimmed ++ "\n\n--- Attached File: " ++ f.name ++ " ---\n" ++ f.content

/-- The display text of the user message (source line 406). -/
def displayText (trimmed : String) (file : Option TextFile) : String :=
  if trimmed = "" then
    match file with
    | some f => "Sent file: " ++ f.name
    | none => ""
  else trimmed

/-- Synchronous part of handleSendMessage (source lines 390-419): guard,
append the full-form user message, clear input and attachments, then the
synchronous head of processMessage.  Returns the placeholder id when a
turn was dispatched, none when the send was rejected. -/
def handleSendMessageStart (s : EngineState) (overrideText : Option String) (now : Nat) :
    EngineState × Option Nat :=
  let textToSend := overrideText.getD s.inputValue
  if sendGuard s textToSend then (s, none)
  else
    let trimmed := jsTrim textToSend
    let userText := buildUserText trimmed s.selectedTextFile
    let userImage := s.imagePreview
    let userMessage : Message :=
      { id := now, role := Role.user, text := displayText trimmed s.selectedTextFile,
        image := userImage, timestamp := now }
    let fullMessageForHistory := { userMessage with text := userText }
    let s1 := setMessagesS s (s.messages ++ [fullMessageForHistory]) now
    let s2 := { s1 with
      inputValue := "",
      selectedImage := none,
      imagePreview := none,
      selectedTextFile := none }
    let r := processStart s2 userText userImage s.messages now
    (r.1, some r.2)

/-- handleSendMessage of the source (lines 390-420), with the provider
outcome supplied explicitly. -/
def handleSendMessage (s : EngineState) (overrideText : Option String)
    (outcome : StreamOutcome) (now : Nat) : EngineState :=
  let r := handleSendMessageStart s overrideText now
  match r.2 with
  | none => r.1
  | some aiId => runOutcome r.1 aiId outcome now

/-- handleGenerateImage of the source (lines 343-388), with the adapter
result supplied explicitly. -/
def handleGenerateImage (s : EngineState) (outcome : Except String String) (now : Nat) :
    EngineState :=
  if (jsTrim s.inputValue == "") || s.isStreaming then s
  else
    let prompt := jsTrim s.inputValue
    let s0 := { s with inputValue := "" }
    let userMsg : Message :=
      { id := now, role := Role.user, text := "Generate image: " ++ prompt, timestamp := now }
    let s1 := setMessagesS s0 (s0.messages ++ [userMsg]) now
    let botMsgId := now + 1
    let botMsg : Message :=
      { id := botMsgId, role := Role.model, text := "Generating image...",
        isStreaming := true, timestamp := now }
    let s2 := setMessagesS s1 (s1.messages ++ [botMsg]) now
    let s3 := { s2 with
      isStreaming := true,
      providerCalls := s2.providerCalls ++ [ProviderCall.image prompt] }
    match outcome with
    | Except.ok base64Image =>
      let s4 := setMessagesS s3 (s3.messages.map (fun m =>
        if m.id = botMsgId then
          { m with
            text := "Generated image for: \"" ++ prompt ++ "\"",
            image := some base64Image,
            isStreaming := false }
        else m)) now
      { s4 with isStreaming := false }
    | Except.error eMsg =>
      let s4 := setMessagesS s3 (s3.messages.map (fun m =>
        if m.id = botMsgId then
          { m with
            text := "Error generating image: " ++ eMsg,
            isError := true,
            isStreaming := false }
        else m)) now
      { s4 with isStreaming := false }

/-- The image-generation request marker used by regenerate, edit and the
suggestion handler. -/
def genTag : String := "Generate image:"

/-- Prompt extraction used by handleEditMessage (source lines 480-482):
strip the marker and trim when present, otherwise keep the text. -/
def stripGenTag (t : String) : String :=
  if jsStartsWith t genTag then jsTrim (jsDrop t (jsLen genTag)) else t

/-- handleRegenerate of the source (lines 422-472), with both possible
adapter outcomes supplied explicitly (only the branch that is taken uses
its outcome). -/
def handleRegenerate (s : EngineState) (chatOutcome : StreamOutcome)
    (imgOutcome : Except String String) (now : Nat) : EngineState :=
  if s.isStreaming || s.messages.isEmpty then s
  else
    match s.messages.getLast? with
    | none => s
    | some lastMessage =>
      if lastMessage.role ≠ Role.model then s
      else
        let newHistory := s.messages.dropLast
        let s1 := setMessagesS s newHistory now
        match newHistory.getLast? with
        | none => s1
        | some lastUserMessage =>
          if lastUserMessage.role ≠ Role.user then s1
          else if jsStartsWith lastUserMessage.text genTag then
            let prompt := jsTrim (jsDrop lastUserMessage.text (jsLen genTag))
            let botMsgId := now + 1
            let botMsg : Message :=
              { id := botMsgId, role := Role.model, text := "Generating image...",
                isStreaming := true, timestamp := now }
            let s2 := setMessagesS s1 (s1.messages ++ [botMsg]) now
            let s3 := { s2 with
              isStreaming := true,
              providerCalls := s2.providerCalls ++ [ProviderCall.image prompt] }
            match imgOutcome with
            | Except.ok base64Image =>
              let s4 := setMessagesS s3 (s3.messages.map (fun m =>
                if m.id = botMsgId then
                  { m with
                    text := "Generated image for: \"" ++ prompt ++ "\"",
                    image := some base64Image,
                    isStreaming := false }
                else m)) now
              { s4 with isStreaming := false }
            | Except.error eMsg =>
              let s4 := setMessagesS s3 (s3.messages.map (fun m =>
                if m.id = botMsgId then
                  { m with text := "Error: " ++ eMsg, isError := true, isStreaming := false }
                else m)) now
              { s4 with isStreaming := false }
          else
            processMessage s1 lastUserMessage.text lastUserMessage.image
              (newHistory.dropLast) chatOutcome now

/-- handleEditMessage of the source (lines 474-488). -/
def handleEditMessage (s : EngineState) (index : Nat) (now : Nat) : EngineState :=
  if s.isStreaming then s
  else
    match s.messages.get? index with
    | none => s
    | some msgToEdit =>
      if msgToEdit.role ≠ Role.user then s
      else
        let textToEdit := stripGenTag msgToEdit.text
        let s1 := { s with inputValue := textToEdit }
        setMessagesS s1 (s1.messages.take index) now

/-- createNewSession of the source (lines 163-175). -/
def createNewSession (s : EngineState) (now : Nat) : EngineState :=
  let newSession : ChatSession := { id := now, title := "New Chat", messages := [], updatedAt := now }
  syncSessions { s with
    sessions := newSession :: s.sessions,
    currentSessionId := some now,
    messages := [] } now

/-- loadSession of the source (lines 177-184). -/
def loadSession (s : EngineState) (sessionId : Nat) (now : Nat) : EngineState :=
  match s.sessions.find? (fun c => c.id == sessionId) with
  | none => s
  | some sess =>
    syncSessions { s with currentSessionId := some sessionId, messages := sess.messages } now

/-- deleteSession of the source (lines 186-197). -/
def deleteSession (s : EngineState) (sessionId : Nat) (now : Nat) : EngineState :=
  let newSessions := s.sessions.filter (fun c => c.id ≠ sessionId)
  let s1 := { s with sessions := newSessions }
  if s.currentSessionId = some sessionId then
    match newSessions with
    | [] => createNewSession s1 now
    | h :: _ => loadSession s1 h.id now
  else s1

/-- Lookup of a session entry by id. -/
def findSession (s : EngineState) (sid : Nat) : Option ChatSession :=
  s.sessions.find? (fun c => c.id == sid)

/-- The stored message log of a session. -/
def sessionLog (s : EngineState) (sid : Nat) : Option (List Message) :=
  (findSession s sid).map (fun c => c.messages)

/-- The stored title of a session. -/
def sessionTitle (s : EngineState) (sid : Nat) : Option String :=
  (findSession s sid).map (fun c => c.title)

/-- Number of messages currently flagged as streaming. -/
def streamingCount (msgs : List Message) : Nat :=
  (msgs.filter (fun m => m.isStreaming)).length

@[simp] theorem syncSessions_messages (s : EngineState) (now : Nat) :
    (syncSessions s now).messages = s.messages := by
  cases hc : s.currentSessionId <;> simp [syncSessions, hc]

@[simp] theorem syncSessions_isStreaming (s : EngineState) (now : Nat) :
    (syncSessions s now).isStreaming = s.isStreaming := by
  cases hc : s.currentSessionId <;> simp [syncSessions, hc]

@[simp] theorem syncSessions_currentSessionId (s : EngineState) (now : Nat) :
    (syncSessions s now).currentSessionId = s.currentSessionId := by
  cases hc : s.currentSessionId <;> simp [syncSessions, hc]

@[simp] theorem syncSessions_cfg (s : EngineState) (now : Nat) :
    (syncSessions s now).cfg = s.cfg := by
  cases hc : s.currentSessionId <;> simp [syncSessions, hc]

@[simp] theorem syncSessions_providerCalls (s : EngineState) (now : Nat) :
    (syncSessions s now).providerCalls = s.providerCalls := by
  cases hc : s.currentSessionId <;> simp [syncSessions, hc]

@[simp] theorem syncSessions_inputValue (s : EngineState) (now : Nat) :
    (syncSessions s now).inputValue = s.inputValue := by
  cases hc : s.currentSessionId <;> simp [syncSessions, hc]

@[simp] theorem syncSessions_selectedImage (s : EngineState) (now : Nat) :
    (syncSessions s now).selectedImage = s.selectedImage := by
  cases hc : s.currentSessionId <;> simp [syncSessions, hc]

@[simp] theorem syncSessions_imagePreview (s : EngineState) (now : Nat) :
    (syncSessions s now).imagePreview = s.imagePreview := by
  cases hc : s.currentSessionId <;> simp [syncSessions, hc]

@[simp] theorem syncSessions_selectedTextFile (s : EngineState) (now : Nat) :
    (syncSessions s now).selectedTextFile = s.selectedTextFile := by
  cases hc : s.currentSessionId <;> simp [syncSessions, hc]

@[simp] theorem setMessagesS_messages (s : EngineState) (msgs : List Message) (now : Nat) :
    (setMessagesS s msgs now).messages = msgs := by
  simp [setMessagesS, syncSessions_messages]

@[simp] theorem setMessagesS_isStreaming (s : EngineState) (msgs : List Message) (now : Nat) :
    (setMessagesS s msgs now).isStreaming = s.isStreaming := by
  simp [setMessagesS, syncSessions_isStreaming]

@[simp] theorem setMessagesS_currentSessionId (s : EngineState) (msgs : List Message) (now : Nat) :
    (setMessagesS s msgs now).currentSessionId = s.currentSessionId := by
  simp [setMessagesS, syncSessions_currentSessionId]

@[simp] theorem setMessagesS_cfg (s : EngineState) (msgs : List Message) (now : Nat) :
    (setMessagesS s msgs now).cfg = s.cfg := by
  simp [setMessagesS, syncSessions_cfg]

@[simp] theorem setMessagesS_providerCalls (s : EngineState) (msgs : List Message) (now : Nat) :
    (setMessagesS s msgs now).providerCalls = s.providerCalls := by
  simp [setMessagesS, syncSessions_providerCalls]

@[simp] theorem setMessagesS_inputValue (s : EngineState) (msgs : List Message) (now : Nat) :
    (setMessagesS s msgs now).inputValue = s.inputValue := by
  simp [setMessagesS, syncSessions_inputValue]

@[simp] theorem setMessagesS_selectedImage (s : EngineState) (msgs : List Message) (now : Nat) :
    (setMessagesS s msgs now).selectedImage = s.selectedImage := by
  simp [setMessagesS, syncSessions_selectedImage]

@[simp] theorem setMessagesS_imagePreview (s : EngineState) (msgs : List Message) (now : Nat) :
    (setMessagesS s msgs now).imagePreview = s.imagePreview := by
  simp [setMessagesS, syncSessions_imagePreview]

@[simp] theorem setMessagesS_selectedTextFile (s : EngineState) (msgs : List Message) (now : Nat) :
    (setMessagesS s msgs now).selectedTextFile = s.selectedTextFile := by
  simp [setMessagesS, syncSessions_selectedTextFile]

theorem map_patch_append (prev : List Message) (ph : Message) (aiId : Nat) (f : Message → Message)
    (hfresh : ∀ m ∈ prev, m.id ≠ aiId) (hid : ph.id = aiId) :
    (prev ++ [ph]).map (fun m => if m.id = aiId then f m else m) = prev ++ [f ph] := by
  rw [List.map_append]
  congr 1
  · induction prev with
    | nil => rfl
    | cons a t ih =>
      have ha : a.id ≠ aiId := hfresh a (by simp)
      simp only [List.map_cons, if_neg ha]
      rw [ih (fun m hm => hfresh m (by simp [hm]))]
  · simp [hid]

theorem accum_from : ∀ (cs : List (Option String)) (a : String),
    cs.foldl (fun x c => x ++ chunkContrib c) a = a ++ accumText cs
  | [], a => by simp [accumText]
  | c :: rest, a => by
    simp only [accumText, List.foldl_cons]
    rw [accum_from rest (a ++ chunkContrib c), accum_from rest ("" ++ chunkContrib c)]
    simp [String.append_assoc]

theorem accumText_cons (c : Option String) (rest : List (Option String)) :
    accumText (c :: rest) = chunkContrib c ++ accumText rest := by
  simp only [accumText, List.foldl_cons]
  rw [accum_from]
  simp only [accumText]
  simp

theorem accumText_append (a b : List (Option String)) :
    accumText (a ++ b) = accumText a ++ accumText b := by
  simp only [accumText, List.foldl_append]
  rw [accum_from]
  rfl

theorem consumeChunks_spec :
    ∀ (cs : List (Option String)) (s : EngineState) (acc : String) (prev : List Message)
      (ph : Message) (aiId now : Nat),
      s.messages = prev ++ [ph] →
      (∀ m ∈ prev, m.id ≠ aiId) →
      ph.id = aiId →
      ph.text = acc →
      (consumeChunks s aiId acc cs now).2 = acc ++ accumText cs
      ∧ (consumeChunks s aiId acc cs now).1.messages
          = prev ++ [{ ph with text := acc ++ accumText cs }]
      ∧ (consumeChunks s aiId acc cs now).1.isStreaming = s.isStreaming
      ∧ (consumeChunks s aiId acc cs now).1.currentSessionId = s.currentSessionId
      ∧ (consumeChunks s aiId acc cs now).1.cfg = s.cfg
      ∧ (consumeChunks s aiId acc cs now).1.providerCalls = s.providerCalls
  | [], s, acc, prev, ph, aiId, now => by
    intro hmsg hfresh hid htext
    subst htext
    obtain ⟨mi, mr, mt, mim, mst, mer, mts⟩ := ph
    refine ⟨by simp [consumeChunks, accumText], ?_, rfl, rfl, rfl, rfl⟩
    simp only [consumeChunks]
    rw [hmsg]
    simp [accumText]
  | none :: rest, s, acc, prev, ph, aiId, now => by
    intro hmsg hfresh hid htext
    have h := consumeChunks_spec rest s acc prev ph aiId now hmsg hfresh hid htext
    simp only [consumeChunks, chunkStep]
    rw [accumText_cons]
    simpa [chunkContrib] using h
  | some t :: rest, s, acc, prev, ph, aiId, now => by
    intro hmsg hfresh hid htext
    by_cases ht : t = ""
    · subst ht
      have h := consumeChunks_spec rest s acc prev ph aiId now hmsg hfresh hid htext
      simp only [consumeChunks, chunkStep, if_pos rfl]
      rw [accumText_cons]
      simpa [chunkContrib] using h
    · obtain ⟨mi, mr, mt, mim, mst, mer, mts⟩ := ph
      simp only at hid htext
      subst hid
      subst htext
      have hpatch :
          (s.messages.map (fun m => if m.id = mi then { m with text := mt ++ t } else m))
            = prev ++ [⟨mi, mr, mt ++ t, mim, mst, mer, mts⟩] := by
        rw [hmsg]
        exact map_patch_append prev _ mi (fun m => { m with text := mt ++ t }) hfresh rfl
      set s2 := setMessagesS s
        (s.messages.map (fun m => if m.id = mi then { m with text := mt ++ t } else m)) now with hs2
      have hmsg2 : s2.messages = prev ++ [⟨mi, mr, mt ++ t, mim, mst, mer, mts⟩] := by
        rw [hs2, setMessagesS_messages, hpatch]
      have h := consumeChunks_spec rest s2 (mt ++ t) prev
        ⟨mi, mr, mt ++ t, mim, mst, mer, mts⟩ mi now hmsg2 hfresh rfl rfl
      simp only [consumeChunks, chunkStep, if_neg ht]
      rw [accumText_cons]
      simp only [chunkContrib]
      obtain ⟨h1, h2, h3, h4, h5, h6⟩ := h
      refine ⟨?_, ?_, ?_, ?_, ?_, ?_⟩
      · rw [h1, String.append_assoc]
      · rw [h2, String.append_assoc]
      · rw [h3, hs2, setMessagesS_isStreaming]
      · rw [h4, hs2, setMessagesS_currentSessionId]
      · rw [h5, hs2, setMessagesS_cfg]
      · rw [h6, hs2, setMessagesS_providerCalls]

theorem finishStep_spec (S : EngineState) (prev : List Message) (ph2 : Message)
    (aiId : Nat) (acc : String) (now : Nat)
    (hmsg : S.messages = prev ++ [ph2])
    (hfresh : ∀ m ∈ prev, m.id ≠ aiId)
    (hid : ph2.id = aiId) :
    (finishStep S aiId acc now).messages
      = prev ++ [{ ph2 with text := acc, isStreaming := false }]
    ∧ (finishStep S aiId acc now).isStreaming = false := by
  constructor
  · simp only [finishStep]
    rw [setMessagesS_messages, hmsg,
      map_patch_append prev ph2 aiId (fun m => { m with text := acc, isStreaming := false }) hfresh hid]
  · rfl

theorem failStep_spec (S : EngineState) (prev : List Message) (ph2 : Message)
    (aiId : Nat) (eMsg : Option String) (now : Nat)
    (hmsg : S.messages = prev ++ [ph2])
    (hfresh : ∀ m ∈ prev, m.id ≠ aiId)
    (hid : ph2.id = aiId) :
    (failStep S aiId eMsg now).messages
      = prev ++ [{ ph2 with
          text := classifyError S.cfg.model (normalizeErrMsg eMsg),
          isError := true, isStreaming := false }]
    ∧ (failStep S aiId eMsg now).isStreaming = false := by
  constructor
  · simp only [failStep]
    rw [setMessagesS_messages, hmsg,
      map_patch_append prev ph2 aiId
        (fun m => { m with
          text := classifyError S.cfg.model (normalizeErrMsg eMsg),
          isError := true, isStreaming := false }) hfresh hid]
  · rfl

theorem processStart_spec (s : EngineState) (text : String) (image : Option String)
    (history : List Message) (now : Nat) :
    (processStart s text image history now).2 = now + 1
    ∧ (processStart s text image history now).1.messages
        = s.messages ++ [⟨now + 1, Role.model, "", none, true, false, now⟩]
    ∧ (processStart s text image history now).1.isStreaming = true
    ∧ (processStart s text image history now).1.providerCalls
        = s.providerCalls ++ [ProviderCall.chat history text image s.cfg.model
            s.cfg.systemInstruction (thinkingOption s.cfg)]
    ∧ (processStart s text image history now).1.cfg = s.cfg
    ∧ (processStart s text image history now).1.currentSessionId = s.currentSessionId := by
  refine ⟨rfl, ?_, rfl, ?_, ?_, ?_⟩
  · simp only [processStart]
    rw [setMessagesS_messages]
  · simp only [processStart]
    rw [setMessagesS_providerCalls]
  · simp only [processStart]
    rw [setMessagesS_cfg]
  · simp only [processStart]
    rw [setMessagesS_currentSessionId]

/-- C1: consuming the chunk sequence concatenates each chunk's non-empty
text onto the accumulator in arrival order (empty or absent chunk text
contributes nothing): after any k chunks the placeholder's text equals
the concatenation over the first k chunks, a prefix of the value after
k + 1 chunks, while its isStreaming field stays true; on normal stream
exhaustion the placeholder's text equals the concatenation of all chunk
texts with isStreaming set to false, and the in-flight flag is
cleared. -/
theorem c1_stream_accumulation
    (s : EngineState) (prev : List Message) (ph : Message) (aiId now : Nat)
    (cs : List (Option String))
    (hmsg : s.messages = prev ++ [ph])
    (hfresh : ∀ m ∈ prev, m.id ≠ aiId)
    (hid : ph.id = aiId)
    (htext : ph.text = "")
    (hstr : ph.isStreaming = true) :
    (∀ k : Nat,
        (consumeChunks s aiId "" (cs.take k) now).1.messages
          = prev ++ [{ ph with text := accumText (cs.take k) }]
        ∧ ({ ph with text := accumText (cs.take k) } : Message).isStreaming = true
        ∧ ∃ suffix, accumText (cs.take k) ++ suffix = accumText (cs.take (k + 1)))
    ∧ (consumeChunks s aiId "" cs now).2 = accumText cs
    ∧ (finishStep (consumeChunks s aiId "" cs now).1 aiId
          (consumeChunks s aiId "" cs now).2 now).messages
        = prev ++ [{ ph with text := accumText cs, isStreaming := false }]
    ∧ (finishStep (consumeChunks s aiId "" cs now).1 aiId
          (consumeChunks s aiId "" cs now).2 now).isStreaming = false := by
  obtain ⟨m1, m2, m3, m4, m5, m6⟩ := consumeChunks_spec cs s "" prev ph aiId now hmsg hfresh hid htext
  have hfin := finishStep_spec (consumeChunks s aiId "" cs now).1 prev
    { ph with text := "" ++ accumText cs } aiId (consumeChunks s aiId "" cs now).2 now
    m2 hfresh (by simpa using hid)
  refine ⟨?_, by simpa using m1, ?_, hfin.2⟩
  · intro k
    obtain ⟨k1, k2, _⟩ := consumeChunks_spec (cs.take k) s "" prev ph aiId now hmsg hfresh hid htext
    refine ⟨by simpa using k2, by simpa using hstr, ?_⟩
    exact ⟨accumText (cs[k]?.toList), by rw [← accumText_append, ← List.take_succ]⟩
  · rw [hfin.1, m1]
    simp

/-- Default configuration used by concrete test states. -/
def baseCfg : ChatConfig :=
  ⟨"gemini-2.5-flash", "You are a helpful, clever, and friendly AI assistant named Gemini.", false⟩

/-- A blank component state. -/
def s0 : EngineState := ⟨[], [], none, "", none, none, none, false, baseCfg, []⟩

/-- Concrete user message for the C1 witness. -/
def c1User : Message := ⟨0, Role.user, "hi", none, false, false, 0⟩

/-- Concrete streaming placeholder for the C1 witness. -/
def c1Ph : Message := ⟨1, Role.model, "", none, true, false, 0⟩

/-- Concrete state for the C1 witness. -/
def c1S : EngineState := ⟨[c1User, c1Ph], [], none, "", none, none, none, true, baseCfg, []⟩

/-- Concrete chunk sequence for the C1 witness. -/
def c1Cs : List (Option String) := [some "Hel", none, some "", some "lo"]

theorem c1_stream_accumulation_witness :
    (∀ k : Nat,
        (consumeChunks c1S 1 "" (c1Cs.take k) 7).1.messages
          = [c1User] ++ [{ c1Ph with text := accumText (c1Cs.take k) }]
        ∧ ({ c1Ph with text := accumText (c1Cs.take k) } : Message).isStreaming = true
        ∧ ∃ suffix, accumText (c1Cs.take k) ++ suffix = accumText (c1Cs.take (k + 1)))
    ∧ (consumeChunks c1S 1 "" c1Cs 7).2 = accumText c1Cs
    ∧ (finishStep (consumeChunks c1S 1 "" c1Cs 7).1 1
          (consumeChunks c1S 1 "" c1Cs 7).2 7).messages
        = [c1User] ++ [{ c1Ph with text := accumText c1Cs, isStreaming := false }]
    ∧ (finishStep (consumeChunks c1S 1 "" c1Cs 7).1 1
          (consumeChunks c1S 1 "" c1Cs 7).2 7).isStreaming = false :=
  c1_stream_accumulation c1S [c1User] c1Ph 1 7 c1Cs rfl (by decide) rfl rfl rfl

/-- C2: handleSendMessage is a no-op, leaving the entire component state
(message log, input, attachments, session list) unchanged, whenever the
composed content is entirely empty (whitespace-only text, no staged
image, no staged file) or a turn is already in flight; the rejection is
synchronous and nothing is queued. -/
theorem c2_send_noop (s : EngineState) (overrideText : Option String)
    (outcome : StreamOutcome) (now : Nat)
    (h : (jsTrim (overrideText.getD s.inputValue) = "" ∧ s.selectedImage = none
          ∧ s.selectedTextFile = none) ∨ s.isStreaming = true) :
    handleSendMessage s overrideText outcome now = s := by
  have hguard : sendGuard s (overrideText.getD s.inputValue) = true := by
    rcases h with ⟨h1, h2, h3⟩ | h4
    · simp [sendGuard, h1, h2, h3]
    · simp [sendGuard, h4]
  simp [handleSendMessage, handleSendMessageStart, hguard]

theorem c2_send_noop_witness :
    handleSendMessage { s0 with inputValue := "  " } none (StreamOutcome.ok [some "x"]) 3
      = { s0 with inputValue := "  " } :=
  c2_send_noop { s0 with inputValue := "  " } none (StreamOutcome.ok [some "x"]) 3
    (Or.inl ⟨by decide, rfl, rfl⟩)

theorem handleGenerateImage_error_spec (s : EngineState) (e : String) (now : Nat)
    (hg1 : (jsTrim s.inputValue == "") = false)
    (hg2 : s.isStreaming = false)
    (hfresh : ∀ m ∈ s.messages, m.id ≠ now + 1) :
    (handleGenerateImage s (Except.error e) now).messages
      = s.messages ++
          [⟨now, Role.user, "Generate image: " ++ jsTrim s.inputValue, none, false, false, now⟩,
           ⟨now + 1, Role.model, "Error generating image: " ++ e, none, false, true, now⟩]
    ∧ (handleGenerateImage s (Except.error e) now).isStreaming = false
    ∧ (handleGenerateImage s (Except.error e) now).selectedImage = s.selectedImage
    ∧ (handleGenerateImage s (Except.error e) now).imagePreview = s.imagePreview
    ∧ (handleGenerateImage s (Except.error e) now).selectedTextFile = s.selectedTextFile
    ∧ (handleGenerateImage s (Except.error e) now).inputValue = ""
    ∧ (handleGenerateImage s (Except.error e) now).providerCalls
        = s.providerCalls ++ [ProviderCall.image (jsTrim s.inputValue)] := by
  have hguard : ((jsTrim s.inputValue == "") || s.isStreaming) = false := by
    rw [hg1, hg2]
    rfl
  have hfresh2 : ∀ m ∈ s.messages ++
      [(⟨now, Role.user, "Generate image: " ++ jsTrim s.inputValue, none, false, false, now⟩ : Message)],
      m.id ≠ now + 1 := by
    intro m hm
    rcases List.mem_append.mp hm with hm1 | hm2
    · exact hfresh m hm1
    · simp at hm2
      rw [hm2]
      simp
  have hpatch := map_patch_append
    (s.messages ++ [⟨now, Role.user, "Generate image: " ++ jsTrim s.inputValue, none, false, false, now⟩])
    (⟨now + 1, Role.model, "Generating image...", none, true, false, now⟩ : Message)
    (now + 1)
    (fun m => { m with text := "Error generating image: " ++ e, isError := true, isStreaming := false })
    hfresh2 rfl
  simp only [handleGenerateImage, hguard, Bool.false_eq_true, if_false,
    setMessagesS_messages, setMessagesS_isStreaming, setMessagesS_providerCalls,
    setMessagesS_selectedImage, setMessagesS_imagePreview, setMessagesS_selectedTextFile,
    setMessagesS_inputValue, setMessagesS_cfg, setMessagesS_currentSessionId]
  refine ⟨?_, by trivial, by trivial, by trivial, by trivial, by trivial, by trivial⟩
  exact hpatch.trans (by simp)

theorem handleGenerateImage_ok_spec (s : EngineState) (b : String) (now : Nat)
    (hg1 : (jsTrim s.inputValue == "") = false)
    (hg2 : s.isStreaming = false)
    (hfresh : ∀ m ∈ s.messages, m.id ≠ now + 1) :
    (handleGenerateImage s (Except.ok b) now).messages
      = s.messages ++
          [⟨now, Role.user, "Generate image: " ++ jsTrim s.inputValue, none, false, false, now⟩,
           ⟨now + 1, Role.model, "Generated image for: \"" ++ jsTrim s.inputValue ++ "\"",
             some b, false, false, now⟩]
    ∧ (handleGenerateImage s (Except.ok b) now).isStreaming = false
    ∧ (handleGenerateImage s (Except.ok b) now).selectedImage = s.selectedImage
    ∧ (handleGenerateImage s (Except.ok b) now).imagePreview = s.imagePreview
    ∧ (handleGenerateImage s (Except.ok b) now).selectedTextFile = s.selectedTextFile
    ∧ (handleGenerateImage s (Except.ok b) now).inputValue = ""
    ∧ (handleGenerateImage s (Except.ok b) now).providerCalls
        = s.providerCalls ++ [ProviderCall.image (jsTrim s.inputValue)] := by
  have hguard : ((jsTrim s.inputValue == "") || s.isStreaming) = false := by
    rw [hg1, hg2]
    rfl
  have hfresh2 : ∀ m ∈ s.messages ++
      [(⟨now, Role.user, "Generate image: " ++ jsTrim s.inputValue, none, false, false, now⟩ : Message)],
      m.id ≠ now + 1 := by
    intro m hm
    rcases List.mem_append.mp hm with hm1 | hm2
    · exact hfresh m hm1
    · simp at hm2
      rw [hm2]
      simp
  have hpatch := map_patch_append
    (s.messages ++ [⟨now, Role.user, "Generate image: " ++ jsTrim s.inputValue, none, false, false, now⟩])
    (⟨now + 1, Role.model, "Generating image...", none, true, false, now⟩ : Message)
    (now + 1)
    (fun m => { m with
      text := "Generated image for: \"" ++ jsTrim s.inputValue ++ "\"",
      image := some b,
      isStreaming := false })
    hfresh2 rfl
  simp only [handleGenerateImage, hguard, Bool.false_eq_true, if_false,
    setMessagesS_messages, setMessagesS_isStreaming, setMessagesS_providerCalls,
    setMessagesS_selectedImage, setMessagesS_imagePreview, setMessagesS_selectedTextFile,
    setMessagesS_inputValue, setMessagesS_cfg, setMessagesS_currentSessionId]
  refine ⟨?_, by trivial, by trivial, by trivial, by trivial, by trivial, by trivial⟩
  exact hpatch.trans (by simp)

/-- C3: a provider failure raised during a chat turn is caught inside the
turn pipeline and converted into a terminal patch of the placeholder with
isError = true, isStreaming = false and a text classified by the failure
description (credential class for a description containing "API Key",
model-unavailable class for "404", rate-limit class for "429", otherwise
a generic message containing the raw description); a failure of the
image-generation pipeline likewise ends in a terminal error patch; both
operations are total functions of the supplied outcome (no failure
escapes to the caller), and in every terminal case (normal or failed,
chat or image) the in-flight flag is cleared so a new turn may be
dispatched. -/
theorem c3_failure_terminal (s : EngineState) (text : String) (image : Option String)
    (history : List Message) (cs : List (Option String)) (eMsg : Option String) (now : Nat)
    (hfresh : ∀ m ∈ s.messages, m.id ≠ now + 1) :
    (processMessage s text image history (StreamOutcome.err cs eMsg) now).messages
      = s.messages ++
          [⟨now + 1, Role.model, classifyError s.cfg.model (normalizeErrMsg eMsg),
            none, false, true, now⟩]
    ∧ (processMessage s text image history (StreamOutcome.err cs eMsg) now).isStreaming = false
    ∧ (processMessage s text image history (StreamOutcome.ok cs) now).isStreaming = false
    ∧ (strIncludes (normalizeErrMsg eMsg) "API Key" = true →
        classifyError s.cfg.model (normalizeErrMsg eMsg)
          = "API Key missing. Please add API_KEY to Vercel Environment Variables.")
    ∧ (strIncludes (normalizeErrMsg eMsg) "API Key" = false →
        strIncludes (normalizeErrMsg eMsg) "404" = true →
        classifyError s.cfg.model (normalizeErrMsg eMsg)
          = "Model " ++ s.cfg.model ++ " not found or not available. Try switching models.")
    ∧ (strIncludes (normalizeErrMsg eMsg) "API Key" = false →
        strIncludes (normalizeErrMsg eMsg) "404" = false →
        strIncludes (normalizeErrMsg eMsg) "429" = true →
        classifyError s.cfg.model (normalizeErrMsg eMsg)
          = "Rate limit exceeded. Please try again later.")
    ∧ (strIncludes (normalizeErrMsg eMsg) "API Key" = false →
        strIncludes (normalizeErrMsg eMsg) "404" = false →
        strIncludes (normalizeErrMsg eMsg) "429" = false →
        classifyError s.cfg.model (normalizeErrMsg eMsg)
          = "Error: " ++ normalizeErrMsg eMsg)
    ∧ (∀ e2 : String,
        (jsTrim s.inputValue == "") = false → s.isStreaming = false →
        (handleGenerateImage s (Except.error e2) now).messages
          = s.messages ++
              [⟨now, Role.user, "Generate image: " ++ jsTrim s.inputValue, none, false, false, now⟩,
               ⟨now + 1, Role.model, "Error generating image: " ++ e2, none, false, true, now⟩]
        ∧ (handleGenerateImage s (Except.error e2) now).isStreaming = false)
    ∧ (∀ b : String,
        (jsTrim s.inputValue == "") = false → s.isStreaming = false →
        (handleGenerateImage s (Except.ok b) now).isStreaming = false) := by
  obtain ⟨hs2, hsm, hsf, hsc, hscfg, hsid⟩ := processStart_spec s text image history now
  have hcons := consumeChunks_spec cs (processStart s text image history now).1 "" s.messages
    ⟨now + 1, Role.model, "", none, true, false, now⟩ (now + 1) now hsm hfresh rfl rfl
  obtain ⟨hc1, hc2, hc3, hc4, hc5, hc6⟩ := hcons
  have hfail := failStep_spec (consumeChunks (processStart s text image history now).1 (now + 1) "" cs now).1
    s.messages ({ (⟨now + 1, Role.model, "", none, true, false, now⟩ : Message) with
      text := "" ++ accumText cs }) (now + 1) eMsg now hc2 hfresh rfl
  have hcfg : (consumeChunks (processStart s text image history now).1 (now + 1) "" cs now).1.cfg
      = s.cfg := by rw [hc5, hscfg]
  refine ⟨?_, ?_, ?_, ?_, ?_, ?_, ?_, ?_, ?_⟩
  · show (failStep (consumeChunks (processStart s text image history now).1 (now + 1) "" cs now).1
      (now + 1) eMsg now).messages = _
    rw [hfail.1, hcfg]
  · exact hfail.2
  · have hfin := finishStep_spec
      (consumeChunks (processStart s text image history now).1 (now + 1) "" cs now).1
      s.messages ({ (⟨now + 1, Role.model, "", none, true, false, now⟩ : Message) with
        text := "" ++ accumText cs }) (now + 1)
      (consumeChunks (processStart s text image history now).1 (now + 1) "" cs now).2 now
      hc2 hfresh rfl
    exact hfin.2
  · intro h1
    simp [classifyError, h1]
  · intro h1 h2
    simp [classifyError, h1, h2]
  · intro h1 h2 h3
    simp [classifyError, h1, h2, h3]
  · intro h1 h2 h3
    simp [classifyError, h1, h2, h3]
  · intro e2 hg1 hg2
    have h := handleGenerateImage_error_spec s e2 now hg1 hg2 hfresh
    exact ⟨h.1, h.2.1⟩
  · intro b hg1 hg2
    exact (handleGenerateImage_ok_spec s b now hg1 hg2 hfresh).2.1

/-- Concrete state for the C3 witness. -/
def c3S : EngineState := { s0 with messages := [c1User], inputValue := "a castle" }

theorem c3_failure_terminal_witness :
    (processMessage c3S "hello" none [] (StreamOutcome.err [some "par"] (some "HTTP 429")) 5).messages
      = c3S.messages ++
          [⟨6, Role.model, classifyError c3S.cfg.model (normalizeErrMsg (some "HTTP 429")),
            none, false, true, 5⟩]
    ∧ (processMessage c3S "hello" none [] (StreamOutcome.err [some "par"] (some "HTTP 429")) 5).isStreaming
        = false
    ∧ (processMessage c3S "hello" none [] (StreamOutcome.ok [some "par"]) 5).isStreaming = false
    ∧ classifyError c3S.cfg.model (normalizeErrMsg (some "HTTP 429"))
        = "Rate limit exceeded. Please try again later." :=
  have h := c3_failure_terminal c3S "hello" none [] [some "par"] (some "HTTP 429") 5 (by decide)
  ⟨h.1, h.2.1, h.2.2.1, h.2.2.2.2.2.1 (by decide) (by decide) (by decide)⟩

theorem handleGenerateImage_noop (s : EngineState) (outcome : Except String String) (now : Nat)
    (h : (jsTrim s.inputValue == "") = true ∨ s.isStreaming = true) :
    handleGenerateImage s outcome now = s := by
  have hguard : ((jsTrim s.inputValue == "") || s.isStreaming) = true := by
    rcases h with h1 | h1 <;> simp [h1]
  simp [handleGenerateImage, hguard]

/-- C10: handleGenerateImage consumes only the trimmed input text as the
prompt even when an image or file attachment is staged: the appended user
message carries image = none, the adapter is invoked with the trimmed
input text alone, the staged attachments are left unchanged (neither
cleared nor sent), and the final model message carries either no image
(failure) or exactly the adapter-returned image (success), never the
staged one; the operation is a no-op when the trimmed input is empty or
a turn is in flight. -/
theorem c10_generate_image_frame (s : EngineState) (outcome : Except String String) (now : Nat)
    (hfresh : ∀ m ∈ s.messages, m.id ≠ now + 1) :
    ((jsTrim s.inputValue == "") = true ∨ s.isStreaming = true →
        handleGenerateImage s outcome now = s)
    ∧ ((jsTrim s.inputValue == "") = false → s.isStreaming = false →
        (handleGenerateImage s outcome now).selectedImage = s.selectedImage
        ∧ (handleGenerateImage s outcome now).imagePreview = s.imagePreview
        ∧ (handleGenerateImage s outcome now).selectedTextFile = s.selectedTextFile
        ∧ (handleGenerateImage s outcome now).providerCalls
            = s.providerCalls ++ [ProviderCall.image (jsTrim s.inputValue)]
        ∧ (handleGenerateImage s outcome now).messages
            = s.messages ++
                [⟨now, Role.user, "Generate image: " ++ jsTrim s.inputValue, none, false, false, now⟩,
                 match outcome with
                 | Except.ok b =>
                     ⟨now + 1, Role.model, "Generated image for: \"" ++ jsTrim s.inputValue ++ "\"",
                       some b, false, false, now⟩
                 | Except.error e =>
                     ⟨now + 1, Role.model, "Error generating image: " ++ e, none, false, true, now⟩]) := by
  constructor
  · intro h
    exact handleGenerateImage_noop s outcome now h
  · intro hg1 hg2
    match outcome with
    | Except.ok b =>
      obtain ⟨q1, _, q3, q4, q5, _, q7⟩ := handleGenerateImage_ok_spec s b now hg1 hg2 hfresh
      exact ⟨q3, q4, q5, q7, q1⟩
    | Except.error e =>
      obtain ⟨q1, _, q3, q4, q5, _, q7⟩ := handleGenerateImage_error_spec s e now hg1 hg2 hfresh
      exact ⟨q3, q4, q5, q7, q1⟩

/-- Concrete state for the C10 witness: both attachments staged. -/
def c10S : EngineState :=
  { s0 with
    inputValue := " cat ",
    selectedImage := some "file",
    imagePreview := some "IMG64",
    selectedTextFile := some ⟨"notes.txt", "hello"⟩ }

theorem c10_generate_image_frame_witness :
    (handleGenerateImage c10S (Except.ok "B64") 3).selectedImage = c10S.selectedImage
    ∧ (handleGenerateImage c10S (Except.ok "B64") 3).imagePreview = c10S.imagePreview
    ∧ (handleGenerateImage c10S (Except.ok "B64") 3).selectedTextFile = c10S.selectedTextFile
    ∧ (handleGenerateImage c10S (Except.ok "B64") 3).providerCalls
        = c10S.providerCalls ++ [ProviderCall.image (jsTrim c10S.inputValue)]
    ∧ (handleGenerateImage c10S (Except.ok "B64") 3).messages
        = c10S.messages ++
            [⟨3, Role.user, "Generate image: " ++ jsTrim c10S.inputValue, none, false, false, 3⟩,
             ⟨4, Role.model, "Generated image for: \"" ++ jsTrim c10S.inputValue ++ "\"",
               some "B64", false, false, 3⟩] :=
  (c10_generate_image_frame c10S (Except.ok "B64") 3 (by decide)).2 (by decide) rfl

/-- C5: handleEditMessage on a role-user message at index i, when no turn
is in flight, truncates the log to exactly the first i entries and stages
that message's text into the input field with the "Generate image:"
marker stripped when present; it is a no-op when a turn is in flight or
the message at i is not a user message. -/
theorem c5_edit_message (s : EngineState) (i now : Nat) (msg : Message)
    (hstream : s.isStreaming = false)
    (hat : s.messages.get? i = some msg)
    (hrole : msg.role = Role.user) :
    (handleEditMessage s i now).messages = s.messages.take i
    ∧ (handleEditMessage s i now).messages.length = i
    ∧ (handleEditMessage s i now).inputValue = stripGenTag msg.text
    ∧ (∀ s2 : EngineState, s2.isStreaming = true → handleEditMessage s2 i now = s2)
    ∧ (∀ (s2 : EngineState) (m2 : Message), s2.isStreaming = false →
        s2.messages.get? i = some m2 → m2.role ≠ Role.user →
        handleEditMessage s2 i now = s2) := by
  have hatg : s.messages[i]? = some msg := by
    rw [← List.get?_eq_getElem? s.messages i]
    exact hat
  have hlt : i < s.messages.length := by
    by_contra hge
    rw [List.getElem?_eq_none (Nat.le_of_not_lt hge)] at hatg
    exact Option.noConfusion hatg
  refine ⟨?_, ?_, ?_, ?_, ?_⟩
  · simp [handleEditMessage, hstream, hatg, hrole]
  · simp [handleEditMessage, hstream, hatg, hrole, List.length_take,
      Nat.min_eq_left (Nat.le_of_lt hlt)]
  · simp [handleEditMessage, hstream, hatg, hrole]
  · intro s2 h2
    simp [handleEditMessage, h2]
  · intro s2 m2 h2 hat2 hrole3
    have hatg2 : s2.messages[i]? = some m2 := by
      rw [← List.get?_eq_getElem? s2.messages i]
      exact hat2
    simp [handleEditMessage, h2, hatg2, hrole3]

/-- Concrete state for the C5 witness. -/
def c5S : EngineState :=
  { s0 with messages :=
      [⟨0, Role.user, "Generate image:  a cat ", none, false, false, 0⟩,
       ⟨1, Role.model, "done", none, false, false, 1⟩] }

theorem c5_edit_message_witness :
    (handleEditMessage c5S 0 9).messages = c5S.messages.take 0
    ∧ (handleEditMessage c5S 0 9).messages.length = 0
    ∧ (handleEditMessage c5S 0 9).inputValue
        = stripGenTag "Generate image:  a cat "
    ∧ (∀ s2 : EngineState, s2.isStreaming = true → handleEditMessage s2 0 9 = s2)
    ∧ (∀ (s2 : EngineState) (m2 : Message), s2.isStreaming = false →
        s2.messages.get? 0 = some m2 → m2.role ≠ Role.user →
        handleEditMessage s2 0 9 = s2) :=
  c5_edit_message c5S 0 9 ⟨0, Role.user, "Generate image:  a cat ", none, false, false, 0⟩
    rfl rfl rfl

theorem finishStep_providerCalls (S : EngineState) (aiId : Nat) (acc : String) (now : Nat) :
    (finishStep S aiId acc now).providerCalls = S.providerCalls := by
  simp [finishStep]

theorem finishStep_isStreaming (S : EngineState) (aiId : Nat) (acc : String) (now : Nat) :
    (finishStep S aiId acc now).isStreaming = false := rfl

/-- First model message of the C4 counterexample state. -/
def c4M1 : Message := ⟨0, Role.model, "first", none, false, false, 0⟩

/-- Second model message of the C4 counterexample state. -/
def c4M2 : Message := ⟨1, Role.model, "second", none, false, false, 1⟩

/-- Counterexample state for C4: the log ends in a model message whose
predecessor is also a model message. -/
def c4S : EngineState := { s0 with messages := [c4M1, c4M2] }

/-- C4 counterexample: on a log [model, model] (no turn in flight) the
claim requires handleRegenerate to be a no-op that leaves the log
unchanged, because the message preceding the removed one is not a user
message; but the source removes the last model message before inspecting
the predecessor, so the log shrinks from two entries to one. -/
theorem c4_counterexample :
    (handleRegenerate c4S (StreamOutcome.ok []) (Except.ok "") 9).messages = [c4M1]
    ∧ (handleRegenerate c4S (StreamOutcome.ok []) (Except.ok "") 9).messages ≠ c4S.messages := by
  constructor
  · decide
  · decide

theorem map_patch_fresh (l : List Message) (aiId : Nat) (f : Message → Message)
    (hfresh : ∀ m ∈ l, m.id ≠ aiId) :
    l.map (fun m => if m.id = aiId then f m else m) = l := by
  induction l with
  | nil => rfl
  | cons a t ih =>
    have ha : a.id ≠ aiId := hfresh a (by simp)
    simp only [List.map_cons, if_neg ha]
    rw [ih (fun m hm => hfresh m (by simp [hm]))]

/-- C4 amended: handleRegenerate is a no-op when a turn is in flight,
when the log is empty or when the log does not end in a model message.
When the log ends in a model message that message is always removed
first; if the preceding message is absent or not a user message the
operation stops there, leaving the log truncated by one entry (not
unchanged, as the original claim stated); if the preceding message is a
user message the new model message is re-derived from that user turn:
for an ordinary turn the provider is invoked with that user message's
stored text and image and exactly the history strictly before it, and
for a "Generate image:" turn the image pipeline is re-run on the
extracted prompt. -/
theorem c4_regenerate_amended (chatOutcome : StreamOutcome) (imgOutcome : Except String String)
    (now : Nat) :
    (∀ s : EngineState, s.isStreaming = true →
        handleRegenerate s chatOutcome imgOutcome now = s)
    ∧ (∀ s : EngineState, s.messages = [] →
        handleRegenerate s chatOutcome imgOutcome now = s)
    ∧ (∀ (s : EngineState) (last : Message), s.isStreaming = false →
        s.messages.getLast? = some last → last.role ≠ Role.model →
        handleRegenerate s chatOutcome imgOutcome now = s)
    ∧ (∀ (s : EngineState) (last : Message), s.isStreaming = false →
        s.messages.getLast? = some last → last.role = Role.model →
        (s.messages.dropLast.getLast? = none
          ∨ ∃ p, s.messages.dropLast.getLast? = some p ∧ p.role ≠ Role.user) →
        (handleRegenerate s chatOutcome imgOutcome now).messages = s.messages.dropLast
        ∧ (handleRegenerate s chatOutcome imgOutcome now).providerCalls = s.providerCalls)
    ∧ (∀ (s : EngineState) (init : List Message) (u m : Message) (cs : List (Option String)),
        s.isStreaming = false →
        s.messages = init ++ [u, m] →
        m.role = Role.model → u.role = Role.user →
        jsStartsWith u.text genTag = false →
        chatOutcome = StreamOutcome.ok cs →
        (∀ x ∈ init, x.id ≠ now + 1) → u.id ≠ now + 1 →
        (handleRegenerate s chatOutcome imgOutcome now).messages
          = init ++ [u, ⟨now + 1, Role.model, accumText cs, none, false, false, now⟩]
        ∧ (handleRegenerate s chatOutcome imgOutcome now).providerCalls
            = s.providerCalls ++ [ProviderCall.chat init u.text u.image s.cfg.model
                s.cfg.systemInstruction (thinkingOption s.cfg)]
        ∧ (handleRegenerate s chatOutcome imgOutcome now).isStreaming = false)
    ∧ (∀ (s : EngineState) (init : List Message) (u m : Message) (b : String),
        s.isStreaming = false →
        s.messages = init ++ [u, m] →
        m.role = Role.model → u.role = Role.user →
        jsStartsWith u.text genTag = true →
        imgOutcome = Except.ok b →
        (∀ x ∈ init, x.id ≠ now + 1) → u.id ≠ now + 1 →
        (handleRegenerate s chatOutcome imgOutcome now).messages
          = init ++ [u, ⟨now + 1, Role.model,
              "Generated image for: \"" ++ jsTrim (jsDrop u.text (jsLen genTag)) ++ "\"",
              some b, false, false, now⟩]
        ∧ (handleRegenerate s chatOutcome imgOutcome now).providerCalls
            = s.providerCalls ++ [ProviderCall.image (jsTrim (jsDrop u.text (jsLen genTag)))]
        ∧ (handleRegenerate s chatOutcome imgOutcome now).isStreaming = false) := by
  refine ⟨?_, ?_, ?_, ?_, ?_, ?_⟩
  · intro s h
    simp [handleRegenerate, h]
  · intro s h
    simp [handleRegenerate, h]
  · intro s last hstream hlast hrole
    have hie : s.messages.isEmpty = false := by
      cases hm : s.messages with
      | nil =>
        rw [hm] at hlast
        exact Option.noConfusion hlast
      | cons a t => rfl
    simp [handleRegenerate, hstream, hie, hlast, hrole]
  · intro s last hstream hlast hrole hpred
    have hie : s.messages.isEmpty = false := by
      cases hm : s.messages with
      | nil =>
        rw [hm] at hlast
        exact Option.noConfusion hlast
      | cons a t => rfl
    rcases hpred with hnone | ⟨p, hp, hpr⟩
    · constructor
      · simp [handleRegenerate, hstream, hie, hlast, hrole, hnone]
      · simp [handleRegenerate, hstream, hie, hlast, hrole, hnone]
    · constructor
      · simp [handleRegenerate, hstream, hie, hlast, hrole, hp, hpr]
      · simp [handleRegenerate, hstream, hie, hlast, hrole, hp, hpr]
  · intro s init u m cs hstream hshape hm hu hsw hco hfinit hfu
    subst hco
    have hred : handleRegenerate s (StreamOutcome.ok cs) imgOutcome now
        = processMessage (setMessagesS s (init ++ [u]) now) u.text u.image init
            (StreamOutcome.ok cs) now := by
      simp [handleRegenerate, hstream, hshape, hm, hu, hsw]
    have hS1m : (setMessagesS s (init ++ [u]) now).messages = init ++ [u] :=
      setMessagesS_messages s (init ++ [u]) now
    obtain ⟨hp2, hpm, hpf, hpc, hpcfg, hpid⟩ :=
      processStart_spec (setMessagesS s (init ++ [u]) now) u.text u.image init now
    rw [hS1m] at hpm
    have hfresh2 : ∀ x ∈ init ++ [u], x.id ≠ now + 1 := by
      intro x hx
      rcases List.mem_append.mp hx with hx1 | hx2
      · exact hfinit x hx1
      · simp at hx2
        rw [hx2]
        exact hfu
    obtain ⟨hc1, hc2, hc3, hc4, hc5, hc6⟩ :=
      consumeChunks_spec cs (processStart (setMessagesS s (init ++ [u]) now) u.text u.image init now).1
        "" (init ++ [u]) ⟨now + 1, Role.model, "", none, true, false, now⟩ (now + 1) now
        hpm hfresh2 rfl rfl
    have hfin := finishStep_spec
      (consumeChunks (processStart (setMessagesS s (init ++ [u]) now) u.text u.image init now).1
        (now + 1) "" cs now).1
      (init ++ [u])
      ({ (⟨now + 1, Role.model, "", none, true, false, now⟩ : Message) with
          text := "" ++ accumText cs })
      (now + 1)
      (consumeChunks (processStart (setMessagesS s (init ++ [u]) now) u.text u.image init now).1
        (now + 1) "" cs now).2
      now hc2 hfresh2 rfl
    have hpm2 : processMessage (setMessagesS s (init ++ [u]) now) u.text u.image init
        (StreamOutcome.ok cs) now
        = finishStep
            (consumeChunks (processStart (setMessagesS s (init ++ [u]) now) u.text u.image init now).1
              (now + 1) "" cs now).1
            (now + 1)
            (consumeChunks (processStart (setMessagesS s (init ++ [u]) now) u.text u.image init now).1
              (now + 1) "" cs now).2
            now := rfl
    refine ⟨?_, ?_, ?_⟩
    · rw [hred, hpm2, hfin.1, hc1]
      simp
    · rw [hred, hpm2, finishStep_providerCalls, hc6, hpc,
        setMessagesS_providerCalls, setMessagesS_cfg]
    · rw [hred, hpm2]
      exact finishStep_isStreaming _ _ _ _
  · intro s init u m b hstream hshape hm hu hsw himg hfinit hfu
    subst himg
    have hinit := map_patch_fresh init (now + 1)
      (fun x => { x with
        text := "Generated image for: \"" ++ jsTrim (jsDrop u.text (jsLen genTag)) ++ "\"",
        image := some b,
        isStreaming := false }) hfinit
    refine ⟨?_, ?_, ?_⟩
    · simp [handleRegenerate, hstream, hshape, hm, hu, hsw, hfu, hinit]
    · simp [handleRegenerate, hstream, hshape, hm, hu, hsw]
    · simp [handleRegenerate, hstream, hshape, hm, hu, hsw]

/-- User message preceding the regenerated model message in the C4 witness. -/
def c4U : Message := ⟨2, Role.user, "ask", some "IMGU", false, false, 2⟩

theorem c4_regenerate_amended_witness :
    (handleRegenerate { s0 with messages := [c4U, c4M2] } (StreamOutcome.ok [some "re"])
        (Except.ok "B") 9).messages
      = [] ++ [c4U, ⟨10, Role.model, accumText [some "re"], none, false, false, 9⟩]
    ∧ (handleRegenerate { s0 with messages := [c4U, c4M2] } (StreamOutcome.ok [some "re"])
        (Except.ok "B") 9).providerCalls
      = ({ s0 with messages := [c4U, c4M2] } : EngineState).providerCalls
          ++ [ProviderCall.chat [] c4U.text c4U.image
              ({ s0 with messages := [c4U, c4M2] } : EngineState).cfg.model
              ({ s0 with messages := [c4U, c4M2] } : EngineState).cfg.systemInstruction
              (thinkingOption ({ s0 with messages := [c4U, c4M2] } : EngineState).cfg)]
    ∧ (handleRegenerate { s0 with messages := [c4U, c4M2] } (StreamOutcome.ok [some "re"])
        (Except.ok "B") 9).isStreaming = false :=
  (c4_regenerate_amended (StreamOutcome.ok [some "re"]) (Except.ok "B") 9).2.2.2.2.1
    { s0 with messages := [c4U, c4M2] } [] c4U c4M2 [some "re"]
    rfl rfl rfl rfl (by decide) rfl (by decide) (by decide)

theorem findSession_syncSessions_active (s : EngineState) (cid : Nat) (sess : ChatSession)
    (now : Nat)
    (hcur : s.currentSessionId = some cid)
    (hfind : findSession s cid = some sess) :
    findSession (syncSessions s now) cid
      = some { sess with
          messages := s.messages,
          title := deriveTitle sess.title s.messages,
          updatedAt := now } := by
  have hsid : sess.id = cid := by
    have := List.find?_some hfind
    simpa using this
  unfold findSession at hfind ⊢
  simp only [syncSessions, hcur]
  rw [List.find?_map]
  have hfc : ((fun c : ChatSession => c.id == cid) ∘ (fun sess =>
      if sess.id = cid then
        { sess with
            messages := s.messages,
            title := deriveTitle sess.title s.messages,
            updatedAt := now }
      else sess)) = (fun c : ChatSession => c.id == cid) := by
    funext c
    by_cases h : c.id = cid <;> simp [h]
  rw [hfc, hfind]
  simp [if_pos hsid]

theorem findSession_syncSessions_ne (s : EngineState) (sid : Nat) (now : Nat)
    (h : s.currentSessionId ≠ some sid) :
    findSession (syncSessions s now) sid = findSession s sid := by
  cases hc : s.currentSessionId with
  | none => simp [syncSessions, hc]
  | some cid =>
    have hne : sid ≠ cid := by
      intro he
      rw [hc, he] at h
      exact h rfl
    unfold findSession
    simp only [syncSessions, hc]
    rw [List.find?_map]
    have hfc : ((fun c : ChatSession => c.id == sid) ∘ (fun sess =>
        if sess.id = cid then
          { sess with
              messages := s.messages,
              title := deriveTitle sess.title s.messages,
              updatedAt := now }
        else sess)) = (fun c : ChatSession => c.id == sid) := by
      funext c
      by_cases hcc : c.id = cid <;> simp [hcc]
    rw [hfc]
    cases hf : s.sessions.find? (fun c => c.id == sid) with
    | none => rfl
    | some c0 =>
      have hc0 : c0.id = sid := by
        have := List.find?_some hf
        simpa using this
      have : ¬ c0.id = cid := by
        rw [hc0]
        exact hne
      simp [this]

/-- C6 amended: the sync effect derives the active session's title while
the title is the sentinel "New Chat" OR the empty string (the source
condition is title === "New Chat" || !title, and the empty string is
falsy); when it fires with a first user message present it sets the
title to that message's text truncated to 30 characters with an ellipsis
marker appended iff the text is longer than 30 characters; once the
title is a non-empty string different from the sentinel, no subsequent
sync changes it.  The original claim fails because an image-only first
user turn stores an empty text, so the derived title is the empty
string — no longer the sentinel — and a later sync overwrites it
again. -/
theorem c6_title_amended (s : EngineState) (cid : Nat) (sess : ChatSession) (now : Nat)
    (hcur : s.currentSessionId = some cid)
    (hfind : findSession s cid = some sess) :
    (sess.title ≠ "New Chat" → sess.title ≠ "" →
        sessionTitle (syncSessions s now) cid = some sess.title)
    ∧ (∀ fu : Message,
        (sess.title = "New Chat" ∨ sess.title = "") →
        s.messages.find? (fun m => m.role == Role.user) = some fu →
        sessionTitle (syncSessions s now) cid
          = some (jsTake fu.text 30 ++ (if 30 < jsLen fu.text then "..." else ""))) := by
  have hact := findSession_syncSessions_active s cid sess now hcur hfind
  constructor
  · intro h1 h2
    have hd : deriveTitle sess.title s.messages = sess.title := by
      simp [deriveTitle, h1, h2]
    simp [sessionTitle, hact, hd]
  · intro fu hor hfu
    have hlen : 0 < s.messages.length := by
      cases hm : s.messages with
      | nil =>
        rw [hm] at hfu
        exact Option.noConfusion hfu
      | cons a t => simp
    have hd : deriveTitle sess.title s.messages
        = jsTake fu.text 30 ++ (if 30 < jsLen fu.text then "..." else "") := by
      unfold deriveTitle
      rw [if_pos ⟨hor, hlen⟩, hfu]
    simp [sessionTitle, hact, hd]

/-- C6 counterexample trace, step 1: a fresh session. -/
def c6A : EngineState := createNewSession s0 10

/-- C6 counterexample trace, step 2: an image-only send (empty input text,
staged image); the stored first user message has empty text, so the
derived title is the empty string. -/
def c6B : EngineState :=
  handleSendMessage { c6A with selectedImage := some "f", imagePreview := some "I" }
    none (StreamOutcome.ok [some "Hi!"]) 20

/-- C6 counterexample trace, step 3: edit the (empty) first user message,
rewinding the log to empty. -/
def c6C : EngineState := handleEditMessage c6B 0 30

/-- C6 counterexample trace, step 4: send a text turn; the sync effect
re-derives the title although it had already been derived once. -/
def c6D : EngineState := handleSendMessage c6C (some "Hello") (StreamOutcome.ok [some "World"]) 40

/-- C6 counterexample: after an image-only first turn the session title
has been derived to "" (no longer the sentinel "New Chat"); a later user
message changes the title again, to "Hello" — so title derivation fires
twice for the same session and a non-sentinel title is overwritten,
contradicting the claim. -/
theorem c6_counterexample :
    sessionTitle c6B 10 = some ""
    ∧ ("" : String) ≠ "New Chat"
    ∧ sessionTitle c6D 10 = some "Hello"
    ∧ sessionTitle c6D 10 ≠ sessionTitle c6B 10 := by
  refine ⟨by decide, by decide, by decide, by decide⟩

/-- First user message of the C6 witness state (61 characters long). -/
def c6WU : Message :=
  ⟨0, Role.user, "Explain quantum computing in simple terms for a five year old",
    none, false, false, 0⟩

/-- C6 witness state: a sentinel-titled session with one long user message. -/
def c6W : EngineState :=
  { s0 with
    currentSessionId := some 1,
    sessions := [⟨1, "New Chat", [], 0⟩],
    messages := [c6WU] }

theorem c6_title_amended_witness :
    sessionTitle (syncSessions c6W 5) 1
      = some (jsTake c6WU.text 30 ++ (if 30 < jsLen c6WU.text then "..." else ""))
    ∧ jsTake c6WU.text 30 ++ (if 30 < jsLen c6WU.text then "..." else "")
      = "Explain quantum computing in s..." :=
  ⟨(c6_title_amended c6W 1 ⟨1, "New Chat", [], 0⟩ 5 rfl (by decide)).2 c6WU
      (Or.inl rfl) (by decide),
   by decide⟩

theorem streamingCount_map_le (l : List Message) (g : Message → Message)
    (hg : ∀ m, (g m).isStreaming = true → m.isStreaming = true) :
    streamingCount (l.map g) ≤ streamingCount l := by
  induction l with
  | nil => simp [streamingCount]
  | cons a t ih =>
    by_cases hga : (g a).isStreaming = true
    · have ha := hg a hga
      simp only [streamingCount, List.map_cons, List.filter_cons, hga, ha, if_true,
        List.length_cons]
      exact Nat.succ_le_succ ih
    · have hga2 : (g a).isStreaming = false := by
        cases hb : (g a).isStreaming
        · rfl
        · exact absurd hb hga
      cases hb : a.isStreaming
      · simp only [streamingCount, List.map_cons, List.filter_cons, hga2, hb,
          Bool.false_eq_true, if_false]
        exact ih
      · simp only [streamingCount, List.map_cons, List.filter_cons, hga2, hb,
          Bool.false_eq_true, if_false, if_true, List.length_cons]
        exact Nat.le_trans ih (Nat.le_succ _)

theorem streamingCount_eq_zero (l : List Message)
    (h : ∀ m ∈ l, m.isStreaming = false) : streamingCount l = 0 := by
  induction l with
  | nil => rfl
  | cons a t ih =>
    have ha : a.isStreaming = false := h a (by simp)
    simp only [streamingCount, List.filter_cons, ha, Bool.false_eq_true, if_false]
    exact ih (fun m hm => h m (by simp [hm]))

/-- Shared mid-stream-switch trace, step 1: a fresh session (id 10). -/
def trS1 : EngineState := createNewSession s0 10

/-- Step 2: dispatch the send of "hi" in session 10; the synchronous part
appends the user message (id 20) and the streaming placeholder (id 21). -/
def trS2 : EngineState := (handleSendMessageStart trS1 (some "hi") 20).1

/-- Step 3: while the stream is in flight, create and switch to a new
session (id 30); the live log is cleared. -/
def trS3 : EngineState := createNewSession trS2 30

/-- Step 4: the in-flight turn delivers the chunk "Hello"; the patch by
placeholder id misses in the new session's live log. -/
def trChunk : EngineState × String := chunkStep trS3 21 "" (some "Hello") 40

/-- State after the post-switch chunk delivery. -/
def trS4 : EngineState := trChunk.1

/-- Step 5: the stream ends; the finalization patch also misses and the
in-flight flag clears. -/
def trS5 : EngineState := finishStep trS4 21 trChunk.2 50

/-- Step 6: switch back to session 10; its stored log still contains the
stale streaming placeholder. -/
def trS6 : EngineState := loadSession trS5 10 60

/-- Step 7: dispatch a new send in session 10 while the stale placeholder
sits in the loaded log. -/
def trS7 : EngineState := (handleSendMessageStart trS6 (some "again") 70).1

/-- C7 counterexample: a reachable trace (send in session 10, switch to a
new session mid-stream, let the stream finish, switch back, send again)
leaves the live log with TWO messages flagged isStreaming = true — the
stale placeholder of the abandoned turn and the new turn's placeholder —
and the stale one is not the most recently appended model message,
contradicting the claimed at-most-one invariant for session switches and
dispatch while a prior turn's placeholder exists. -/
theorem c7_counterexample :
    streamingCount trS7.messages = 2
    ∧ trS7.messages.map (fun m => m.isStreaming) = [false, true, false, true] := by
  constructor
  · decide
  · decide

/-- C7 amended: within a log that contains no streaming message, turn
dispatch appends exactly one streaming message, the new model
placeholder, which is the last element of the log; and chunk delivery,
normal finalization and failure never increase the number of streaming
messages.  The at-most-one-streaming invariant therefore holds for all
single-session executions, but NOT across a session switch that loads a
stored log still carrying a stale streaming placeholder: dispatching
there produces a second streaming message (see the counterexample). -/
theorem c7_streaming_amended :
    (∀ (s : EngineState) (text : String) (image : Option String) (history : List Message)
        (now : Nat),
        (∀ m ∈ s.messages, m.isStreaming = false) →
        streamingCount (processStart s text image history now).1.messages = 1
        ∧ (processStart s text image history now).1.messages.getLast?
            = some ⟨now + 1, Role.model, "", none, true, false, now⟩)
    ∧ (∀ (s : EngineState) (aiId : Nat) (acc : String) (c : Option String) (now : Nat),
        streamingCount ((chunkStep s aiId acc c now).1.messages) ≤ streamingCount s.messages)
    ∧ (∀ (s : EngineState) (aiId : Nat) (acc : String) (now : Nat),
        streamingCount ((finishStep s aiId acc now).messages) ≤ streamingCount s.messages)
    ∧ (∀ (s : EngineState) (aiId : Nat) (e : Option String) (now : Nat),
        streamingCount ((failStep s aiId e now).messages) ≤ streamingCount s.messages) := by
  refine ⟨?_, ?_, ?_, ?_⟩
  · intro s text image history now hall
    obtain ⟨_, hpm, _, _, _, _⟩ := processStart_spec s text image history now
    constructor
    · rw [hpm]
      simp only [streamingCount, List.filter_append]
      have h0 : streamingCount s.messages = 0 := streamingCount_eq_zero s.messages hall
      simp only [streamingCount] at h0
      simp [h0, List.length_append]
    · rw [hpm]
      simp
  · intro s aiId acc c now
    match c with
    | none => exact Nat.le_refl _
    | some t =>
      by_cases ht : t = ""
      · simp only [chunkStep, ht, if_pos rfl]
        exact Nat.le_refl _
      · simp only [chunkStep, if_neg ht, setMessagesS_messages]
        exact streamingCount_map_le s.messages _ (fun m hm => by
          by_cases hid : m.id = aiId
          · simpa [hid] using hm
          · simpa [hid] using hm)
  · intro s aiId acc now
    simp only [finishStep, setMessagesS_messages]
    exact streamingCount_map_le s.messages _ (fun m hm => by
      by_cases hid : m.id = aiId
      · simp [hid] at hm
      · simpa [hid] using hm)
  · intro s aiId e now
    simp only [failStep, setMessagesS_messages]
    exact streamingCount_map_le s.messages _ (fun m hm => by
      by_cases hid : m.id = aiId
      · simp [hid] at hm
      · simpa [hid] using hm)

theorem c7_streaming_amended_witness :
    streamingCount (processStart c3S "hello" none [] 5).1.messages = 1
    ∧ (processStart c3S "hello" none [] 5).1.messages.getLast?
        = some ⟨6, Role.model, "", none, true, false, 5⟩ :=
  c7_streaming_amended.1 c3S "hello" none [] 5 (by decide)

theorem syncSessions_sessions_ids (s : EngineState) (now : Nat) :
    (syncSessions s now).sessions.map (fun c => c.id) = s.sessions.map (fun c => c.id) := by
  cases hc : s.currentSessionId with
  | none => simp [syncSessions, hc]
  | some cid =>
    simp only [syncSessions, hc]
    rw [List.map_map]
    congr 1
    funext c
    by_cases h : c.id = cid <;> simp [h]

/-- C8 trace: three sessions created in order (ids 0, 1, 2), then session
0 is activated (bumping its updatedAt to 3), then session 2 (updatedAt 4). -/
def c8S5 : EngineState :=
  loadSession (loadSession (createNewSession (createNewSession (createNewSession s0 0) 1) 2) 0 3) 2 4

/-- C8 trace: deleting the active session 2. -/
def c8S6 : EngineState := deleteSession c8S5 2 5

/-- C8 counterexample: just before the deletion the stored list is
[2, 1, 0] with updatedAt 4, 1, 3 — the most recent remaining session by
recency is session 0 (updatedAt 3), but deleting the active session 2
activates session 1 (updatedAt 1), the first entry of the stored list
(creation order), contradicting the claimed most-recent-remaining
selection. -/
theorem c8_counterexample :
    c8S5.sessions.map (fun c => (c.id, c.updatedAt)) = [(2, 4), (1, 1), (0, 3)]
    ∧ c8S5.currentSessionId = some 2
    ∧ c8S6.currentSessionId = some 1
    ∧ c8S6.currentSessionId ≠ some 0 := by
  refine ⟨by decide, by decide, by decide, by decide⟩

/-- C8 amended: deleteSession removes exactly the entry with the given
id; deleting a non-active session changes nothing else (active session
and live message log unchanged); deleting the active session activates
the FIRST session of the remaining stored list — the most recently
created remaining session, since sessions are prepended at creation and
never reordered by updatedAt — and loads its stored log; when no session
remains a fresh session with empty log and sentinel title is created and
activated. -/
theorem c8_delete_amended (s : EngineState) (sid now : Nat) :
    (s.currentSessionId ≠ some sid →
        deleteSession s sid now = { s with sessions := s.sessions.filter (fun c => c.id ≠ sid) })
    ∧ (∀ (h : ChatSession) (t : List ChatSession),
        s.currentSessionId = some sid →
        s.sessions.filter (fun c => c.id ≠ sid) = h :: t →
        (deleteSession s sid now).currentSessionId = some h.id
        ∧ (deleteSession s sid now).messages = h.messages
        ∧ (deleteSession s sid now).sessions.map (fun c => c.id)
            = (h :: t).map (fun c => c.id))
    ∧ (s.currentSessionId = some sid →
        s.sessions.filter (fun c => c.id ≠ sid) = [] →
        (deleteSession s sid now).currentSessionId = some now
        ∧ (deleteSession s sid now).messages = []
        ∧ (deleteSession s sid now).sessions = [⟨now, "New Chat", [], now⟩]) := by
  refine ⟨?_, ?_, ?_⟩
  · intro h
    simp [deleteSession, h]
  · intro h t hcur hfil
    have hfind : ({ s with sessions := h :: t } : EngineState).sessions.find?
        (fun c => c.id == h.id) = some h := by
      simp [List.find?_cons]
    simp only [deleteSession, hfil, if_pos hcur, loadSession]
    rw [hfind]
    refine ⟨?_, ?_, ?_⟩
    · rw [syncSessions_currentSessionId]
    · rw [syncSessions_messages]
    · rw [syncSessions_sessions_ids]
  · intro hcur hfil
    simp only [deleteSession, hfil, if_pos hcur, createNewSession]
    refine ⟨?_, ?_, ?_⟩
    · rw [syncSessions_currentSessionId]
    · rw [syncSessions_messages]
    · simp [syncSessions, deriveTitle]

/-- C8 witness state: two sessions, the second one active. -/
def c8W : EngineState :=
  { s0 with
    currentSessionId := some 7,
    messages := [c1User],
    sessions := [⟨7, "B", [c1User], 9⟩, ⟨3, "A", [c4U], 2⟩] }

theorem c8_delete_amended_witness :
    deleteSession c8W 3 11
      = { c8W with sessions := c8W.sessions.filter (fun c => c.id ≠ 3) } :=
  (c8_delete_amended c8W 3 11).1 (by decide)

theorem sessionLog_setMessagesS_ne (s : EngineState) (X : List Message) (orig now : Nat)
    (h : s.currentSessionId ≠ some orig) :
    sessionLog (setMessagesS s X now) orig = sessionLog s orig := by
  unfold sessionLog setMessagesS
  rw [findSession_syncSessions_ne { s with messages := X } orig now h]
  rfl

/-- C9 amended: after a session switch the live message-log state belongs
to the newly active session and no longer contains the in-flight turn's
placeholder id, so every remaining chunk patch and the finalization
patch are id-scoped no-ops: the live log is unchanged (the newly active
session's log is never mutated by the in-flight turn — this half of the
original claim holds) and the originating, now-inactive session's STORED
log is also unchanged — the remaining chunks are discarded, NOT
delivered into the originating session's stored log as the original
claim states; the stored placeholder stays frozen at its switch-time
text. -/
theorem c9_switch_amended (s : EngineState) (aiId : Nat) (acc : String) (c : Option String)
    (now orig : Nat)
    (hmiss : ∀ m ∈ s.messages, m.id ≠ aiId)
    (horig : s.currentSessionId ≠ some orig) :
    (chunkStep s aiId acc c now).1.messages = s.messages
    ∧ sessionLog (chunkStep s aiId acc c now).1 orig = sessionLog s orig
    ∧ (finishStep s aiId acc now).messages = s.messages
    ∧ sessionLog (finishStep s aiId acc now) orig = sessionLog s orig
    ∧ (∀ (cid : Nat) (sess : ChatSession),
        s.currentSessionId = some cid →
        findSession s cid = some sess →
        sess.messages = s.messages →
        sessionLog (chunkStep s aiId acc c now).1 cid = some s.messages) := by
  have hmsgs : ∀ (f : Message → Message),
      s.messages.map (fun m => if m.id = aiId then f m else m) = s.messages :=
    fun f => map_patch_fresh s.messages aiId f hmiss
  refine ⟨?_, ?_, ?_, ?_, ?_⟩
  · match c with
    | none => rfl
    | some t =>
      by_cases ht : t = ""
      · simp [chunkStep, ht]
      · simp only [chunkStep, if_neg ht, setMessagesS_messages]
        rw [hmsgs]
  · match c with
    | none => rfl
    | some t =>
      by_cases ht : t = ""
      · simp [chunkStep, ht]
      · simp only [chunkStep, if_neg ht]
        exact sessionLog_setMessagesS_ne s _ orig now horig
  · simp only [finishStep, setMessagesS_messages]
    rw [hmsgs]
  · have : sessionLog (finishStep s aiId acc now) orig
        = sessionLog (setMessagesS s (s.messages.map (fun m =>
            if m.id = aiId then { m with text := acc, isStreaming := false } else m)) now) orig := rfl
    rw [this]
    exact sessionLog_setMessagesS_ne s _ orig now horig
  · intro cid sess hcur hfind hsm
    have hbase : sessionLog s cid = some s.messages := by
      rw [sessionLog, hfind]
      simp [hsm]
    match c with
    | none => exact hbase
    | some t =>
      by_cases ht : t = ""
      · simpa [chunkStep, ht] using hbase
      · have hX := hmsgs (fun m => { m with text := acc ++ t })
        simp only [chunkStep, if_neg ht]
        have hfind2 : findSession ({ s with messages := s.messages.map (fun m =>
            if m.id = aiId then { m with text := acc ++ t } else m) } : EngineState) cid
            = some sess := hfind
        have hact := findSession_syncSessions_active
          { s with messages := s.messages.map (fun m =>
              if m.id = aiId then { m with text := acc ++ t } else m) }
          cid sess now hcur hfind2
        rw [setMessagesS, sessionLog, hact]
        simp [hX]
  
/-- C9 counterexample: in the shared mid-stream-switch trace, the chunk
"Hello" delivered after the switch leaves the originating session 10's
stored log unchanged — the stored placeholder keeps text "" (the chunk
is discarded), and the finalization also changes nothing — contradicting
the claim that remaining chunks and the finalization continue to be
delivered into the originating session's stored log. -/
theorem c9_counterexample :
    trS3.currentSessionId = some 30
    ∧ sessionLog trS3 10
        = some [⟨20, Role.user, "hi", none, false, false, 20⟩,
                ⟨21, Role.model, "", none, true, false, 20⟩]
    ∧ trChunk.2 = "Hello"
    ∧ sessionLog trS4 10 = sessionLog trS3 10
    ∧ sessionLog trS5 10 = sessionLog trS3 10 := by
  refine ⟨by decide, by decide, by decide, by decide, by decide⟩

theorem c9_switch_amended_witness :
    (chunkStep trS3 21 "" (some "Hello") 40).1.messages = trS3.messages
    ∧ sessionLog (chunkStep trS3 21 "" (some "Hello") 40).1 10 = sessionLog trS3 10
    ∧ (finishStep trS3 21 "" 40).messages = trS3.messages
    ∧ sessionLog (finishStep trS3 21 "" 40) 10 = sessionLog trS3 10
    ∧ (∀ (cid : Nat) (sess : ChatSession),
        trS3.currentSessionId = some cid →
        findSession trS3 cid = some sess →
        sess.messages = trS3.messages →
        sessionLog (chunkStep trS3 21 "" (some "Hello") 40).1 cid = some trS3.messages) :=
  c9_switch_amended trS3 21 "" (some "Hello") 40 10 (by decide) (by decide)

/-- C3 counterexample: the claim requires every provider failure whose
description contains "429" to surface the rate-limit class message, but
an image-generation failure with description "429" is patched with the
generic "Error generating image: 429" text — the image pipeline never
applies the classification. -/
theorem c3_counterexample :
    (handleGenerateImage { s0 with inputValue := "pic" } (Except.error "429") 3).messages.getLast?
      = some ⟨4, Role.model, "Error generating image: 429", none, false, true, 3⟩
    ∧ ("Error generating image: 429" : String)
        ≠ "Rate limit exceeded. Please try again later." := by
  refine ⟨by decide, by decide⟩
